import Mathlib

/-!
Verification of the Krypton Session controller specification against the
repository sources.  The repository ships the session unit tests
(src/krypton/session_test.cc); the Session production code itself is not
under src/, so the session state machine below is modelled from the
specification (spec.md sections 3, 4, 5, 7), with the datapath-reattempt
bound following the behaviour pinned by SessionTest.DatapathReattemptFailure.
-/

namespace Krypton

/-- Status codes used by the session (absl::Status codes seen in the tests). -/
inductive StatusCode
  | ok
  | permissionDenied
  | internalError
  | notFound
  | invalidArgument
  | failedPrecondition
  deriving DecidableEq

/-- A status is a (code, message) pair, as in `spec.md` section 7. -/
structure Status where
  code : StatusCode
  message : String
  deriving DecidableEq

/-- The OK status. -/
def statusOK : Status := ⟨StatusCode.ok, ""⟩

/-- Whether a status is OK. -/
def Status.isOk (s : Status) : Bool :=
  match s.code with
  | StatusCode.ok => true
  | _ => false

/-- String form of a status for the debug surface: "OK" when no error. -/
def Status.debugString (s : Status) : String :=
  match s.code with
  | StatusCode.ok => "OK"
  | _ => s.message

/-- Network types from proto/network_type.proto. -/
inductive NetworkType
  | cellular
  | wifi
  deriving DecidableEq

/-- NetworkInfo: `{network_id: u32, network_type: enum}`; the id may be absent
(spec.md section 3). -/
structure NetworkInfo where
  network_id : Option Nat
  network_type : NetworkType
  deriving DecidableEq

/-- IP family of a tunnel address entry. -/
inductive IpFamily
  | v4
  | v6
  deriving DecidableEq

/-- An address range with a prefix length, one entry of a TunnelConfig. -/
structure IpRange where
  family : IpFamily
  range : String
  prefixLen : Nat
  deriving DecidableEq

/-- One parsed `user_private_ip` entry of an Add-Egress response:
ipv4 range and ipv6 range, each with its prefix length. -/
structure PrivateIp where
  ipv4Range : String
  ipv4PrefixLen : Nat
  ipv6Range : String
  ipv6PrefixLen : Nat
  deriving DecidableEq

/-- Parsed Add-Egress response (spec.md section 3): the fields the session
uses.  Crypto material (public value, nonce, expiry) is out of scope. -/
structure AddEgressResponse where
  user_private_ip : List PrivateIp
  egress_point_sock_addr : List String
  uplink_spi : Nat
  deriving DecidableEq

/-- An egress socket address is IPv6 when it contains a bracket
(spec.md section 4.4). -/
def isV6Addr (s : String) : Bool := s.data.contains '['

/-- IPv6 endpoint candidates, in wire order (spec.md section 4.4). -/
def v6Candidates (r : AddEgressResponse) : List String :=
  r.egress_point_sock_addr.filter isV6Addr

/-- IPv4 endpoint candidates, in wire order (spec.md section 4.4). -/
def v4Candidates (r : AddEgressResponse) : List String :=
  r.egress_point_sock_addr.filter (fun s => !(isV6Addr s))

/-- Endpoint list used on the reattempt with the given zero-based index:
attempts 0 and 1 use the primary IPv6 candidate, later attempts the primary
IPv4 candidate; exactly one candidate is passed (spec.md section 4.4). -/
def reattemptEndpoint (r : AddEgressResponse) (i : Nat) : List String :=
  if i < 2 then (v6Candidates r).take 1 else (v4Candidates r).take 1

/-- TunnelConfig emitted to the VPN service (spec.md sections 3, 4.5). -/
structure TunnelConfig where
  tunnel_ip_addresses : List IpRange
  tunnel_dns_addresses : List IpRange
  is_metered : Bool
  deriving DecidableEq

/-- The four fixed public DNS entries of a TunnelConfig (spec.md section 3). -/
def fixedDnsAddresses : List IpRange :=
  [⟨IpFamily.v4, "8.8.8.8", 32⟩,
   ⟨IpFamily.v4, "8.8.8.4", 32⟩,
   ⟨IpFamily.v6, "2001:4860:4860::8888", 128⟩,
   ⟨IpFamily.v6, "2001:4860:4860::8844", 128⟩]

/-- The tunnel address entries contributed by one `user_private_ip` entry:
the ipv4 range with its prefix, then the ipv6 range with its prefix. -/
def privateIpEntries (p : PrivateIp) : List IpRange :=
  [⟨IpFamily.v4, p.ipv4Range, p.ipv4PrefixLen⟩,
   ⟨IpFamily.v6, p.ipv6Range, p.ipv6PrefixLen⟩]

/-- Modelled from the spec: TunnelConfig construction (spec.md section 4.5):
the `user_private_ip` entries as `tunnel_ip_addresses`, the four fixed DNS
entries as `tunnel_dns_addresses`, and `is_metered` false. -/
def mkTunnelConfig (r : AddEgressResponse) : TunnelConfig :=
  { tunnel_ip_addresses := r.user_private_ip.flatMap privateIpEntries
    tunnel_dns_addresses := fixedDnsAddresses
    is_metered := false }

/-- Session states (spec.md section 3). -/
inductive SessionState
  | kInitialized
  | kEgressSessionCreated
  | kControlPlaneConnected
  | kConnected
  | kSessionError
  | kPermanentError
  | kStopped
  deriving DecidableEq

/-- Debug string of a session state (leading `k` prefix, spec.md 6.3). -/
def SessionState.debugString : SessionState → String
  | SessionState.kInitialized => "kInitialized"
  | SessionState.kEgressSessionCreated => "kEgressSessionCreated"
  | SessionState.kControlPlaneConnected => "kControlPlaneConnected"
  | SessionState.kConnected => "kConnected"
  | SessionState.kSessionError => "kSessionError"
  | SessionState.kPermanentError => "kPermanentError"
  | SessionState.kStopped => "kStopped"

/-- The constant MAX_REATTEMPTS (spec.md section 3). -/
def maxReattempts : Nat := 4

/-- Datapath reattempt delay in milliseconds (spec.md section 5). -/
def reattemptDelayMs : Nat := 500

/-- Rekey timer period in milliseconds: 5 minutes (spec.md section 5). -/
def rekeyIntervalMs : Nat := 300000

/-- Modelled from the spec: the Session data model (spec.md section 3).
Packet pipes are represented by their file descriptors; fresh descriptors
and timer ids are drawn from the `next_fd` / `next_timer_id` allocators,
standing in for the VPN service and the Timer Manager. -/
structure Session where
  state : SessionState
  latest_status : Status
  active_network_info : Option NetworkInfo
  active_tun_fd : Option Nat
  active_network_fd : Option Nat
  queued_network_info : Option NetworkInfo
  egress_response : Option AddEgressResponse
  reattempt_count : Nat
  reattempt_timer_id : Int
  rekey_timer_id : Int
  successful_rekeys : Nat
  network_switches : Nat
  is_rekey : Bool
  bridge_over_ppn : Bool
  next_fd : Nat
  next_timer_id : Nat
  deriving DecidableEq

/-- A session in a terminal or error state ignores further posted events
(spec.md section 5, Cancellation). -/
def Session.isDead (st : Session) : Bool :=
  match st.state with
  | SessionState.kSessionError => true
  | SessionState.kPermanentError => true
  | SessionState.kStopped => true
  | _ => false

/-- Modelled from the spec: the freshly constructed session
(spec.md sections 3 and 4.2).  `network_switches` starts at 1: the implicit
initial switch counts as 1 (spec.md section 3 and open question (a)). -/
def initialSession (bridgeOverPpn : Bool) : Session :=
  { state := SessionState.kInitialized
    latest_status := statusOK
    active_network_info := none
    active_tun_fd := none
    active_network_fd := none
    queued_network_info := none
    egress_response := none
    reattempt_count := 0
    reattempt_timer_id := -1
    rekey_timer_id := -1
    successful_rekeys := 0
    network_switches := 1
    is_rekey := false
    bridge_over_ppn := bridgeOverPpn
    next_fd := 1
    next_timer_id := 1 }

/-- Observable effects of a session step: notifications to the embedder and
calls into the collaborators (spec.md sections 4.1 and 6.1). -/
inductive Effect
  | authStart (is_rekey : Bool)
  | getEgressNodeForBridge
  | getEgressNodeForPpnIpSec (is_rekey : Bool)
  | startTimer (durationMs : Nat) (timer_id : Nat)
  | cancelTimer (timer_id : Int)
  | notifyControlPlaneConnected
  | notifyControlPlaneDisconnected (s : Status)
  | notifyPermanentFailure (s : Status)
  | notifyDatapathConnected
  | notifyDatapathDisconnected (ni : Option NetworkInfo) (s : Status)
  | datapathStart
  | datapathRekey
  | createTunnel (cfg : TunnelConfig)
  | createProtectedNetworkSocket (ni : NetworkInfo)
  | switchNetwork (session_id : Nat) (endpoints : List String)
      (ni : Option NetworkInfo) (network_fd : Option Nat) (tun_fd : Nat)
  deriving DecidableEq

/-- Events delivered to the session on the notification thread.  Results of
the synchronous collaborator calls performed while handling an event are
carried by the event itself: `egressAvailable` carries the parsed response
and the status returned by `Datapath.Start` (or `Datapath.Rekey` when
`is_rekey` is set). -/
inductive Event
  | start
  | authSuccessful (is_rekey : Bool)
  | authFailure (s : Status)
  | egressAvailable (is_rekey : Bool) (resp : AddEgressResponse) (dp : Status)
  | egressFailure (s : Status)
  | setNetwork (ni : Option NetworkInfo)
  | datapathEstablished
  | datapathFailed (s : Status)
  | datapathPermanentFailure (s : Status)
  | attemptDatapathReconnect
  | doRekey
  deriving DecidableEq

/-- Result of one session step: the new session, the effects emitted, and
the status returned to the caller of the operation. -/
structure StepResult where
  session : Session
  effects : List Effect
  ret : Status

/-- Modelled from the spec: apply a network switch while the control plane
is up (spec.md section 4.2 transitions 6 and 7, sections 4.5 and 4.6).
With a network: create a protected socket, create the tunnel if none exists
yet, and issue `Datapath.SwitchNetwork` with the full candidate list.
Without a network: keep the tun pipe and pass no network pipe. -/
def doSwitch (st : Session) (ni : Option NetworkInfo) : Session × List Effect :=
  match st.egress_response with
  | none => (st, [])
  | some resp =>
    match ni with
    | some n =>
      let netFd := st.next_fd
      match st.active_tun_fd with
      | some t =>
        ({ st with active_network_info := some n
                   active_network_fd := some netFd
                   next_fd := st.next_fd + 1 },
         [Effect.createProtectedNetworkSocket n,
          Effect.switchNetwork resp.uplink_spi resp.egress_point_sock_addr
            (some n) (some netFd) t])
      | none =>
        let tunFd := st.next_fd + 1
        ({ st with active_network_info := some n
                   active_network_fd := some netFd
                   active_tun_fd := some tunFd
                   next_fd := st.next_fd + 2 },
         [Effect.createProtectedNetworkSocket n,
          Effect.createTunnel (mkTunnelConfig resp),
          Effect.switchNetwork resp.uplink_spi resp.egress_point_sock_addr
            (some n) (some netFd) tunFd])
    | none =>
      match st.active_tun_fd with
      | some t =>
        ({ st with active_network_info := none
                   active_network_fd := none },
         [Effect.switchNetwork resp.uplink_spi resp.egress_point_sock_addr
            none none t])
      | none => (st, [])

/-- Modelled from the spec: `AttemptDatapathReconnect` (spec.md section 4.2
transition 10): recreate the protected socket and issue `SwitchNetwork`
with the single endpoint selected by the reattempt schedule. -/
def doReattemptSwitch (st : Session) : Session × List Effect :=
  match st.egress_response with
  | none => (st, [])
  | some resp =>
    match st.active_tun_fd with
    | none => (st, [])
    | some t =>
      let eps := reattemptEndpoint resp (st.reattempt_count - 1)
      match st.active_network_info with
      | some n =>
        let netFd := st.next_fd
        ({ st with active_network_fd := some netFd
                   next_fd := st.next_fd + 1
                   reattempt_timer_id := -1 },
         [Effect.createProtectedNetworkSocket n,
          Effect.switchNetwork resp.uplink_spi eps (some n) (some netFd) t])
      | none =>
        ({ st with reattempt_timer_id := -1 },
         [Effect.switchNetwork resp.uplink_spi eps none none t])

/-- Modelled from the spec: one step of the Session state machine
(spec.md section 4.2), with the datapath-reattempt bound following
SessionTest.DatapathReattemptFailure in src/krypton/session_test.cc: the
reattempt counter is incremented before being compared against
`MAX_REATTEMPTS`, so three reattempts occur and the fourth consecutive
failure reports `DatapathDisconnected`. -/
def step (st : Session) (e : Event) : StepResult :=
  if st.isDead then ⟨st, [], statusOK⟩ else
  match e with
  | Event.start =>
    match st.state with
    | SessionState.kInitialized => ⟨st, [Effect.authStart false], statusOK⟩
    | _ => ⟨st, [], statusOK⟩
  | Event.authSuccessful rk =>
    ⟨st,
     [if st.bridge_over_ppn then Effect.getEgressNodeForPpnIpSec rk
      else Effect.getEgressNodeForBridge],
     statusOK⟩
  | Event.authFailure s =>
    if s.code = StatusCode.permissionDenied then
      ⟨{ st with latest_status := s, state := SessionState.kPermanentError },
       [Effect.notifyPermanentFailure s], statusOK⟩
    else
      ⟨{ st with latest_status := s, state := SessionState.kSessionError },
       [Effect.notifyControlPlaneDisconnected s], statusOK⟩
  | Event.egressFailure s =>
    ⟨{ st with latest_status := s, state := SessionState.kSessionError },
     [Effect.notifyControlPlaneDisconnected s], statusOK⟩
  | Event.egressAvailable rk resp dp =>
    if rk then
      if dp.isOk then
        ⟨{ st with egress_response := some resp
                   successful_rekeys := st.successful_rekeys + 1
                   is_rekey := false
                   rekey_timer_id := Int.ofNat st.next_timer_id
                   next_timer_id := st.next_timer_id + 1 },
         [Effect.datapathRekey,
          Effect.startTimer rekeyIntervalMs st.next_timer_id],
         statusOK⟩
      else
        ⟨{ st with is_rekey := false, latest_status := dp },
         [Effect.datapathRekey], dp⟩
    else
      match st.state with
      | SessionState.kInitialized =>
        let tid := st.next_timer_id
        let base := [Effect.startTimer rekeyIntervalMs tid,
                     Effect.notifyControlPlaneConnected,
                     Effect.datapathStart]
        let st1 := { st with egress_response := some resp
                             rekey_timer_id := Int.ofNat tid
                             next_timer_id := tid + 1 }
        if dp.isOk then
          let st2 := { st1 with state := SessionState.kConnected }
          match st2.queued_network_info with
          | some n =>
            let r := doSwitch { st2 with queued_network_info := none } (some n)
            ⟨r.1, base ++ r.2, statusOK⟩
          | none => ⟨st2, base, statusOK⟩
        else
          ⟨{ st1 with state := SessionState.kSessionError, latest_status := dp },
           base ++ [Effect.notifyControlPlaneDisconnected dp], dp⟩
      | _ => ⟨st, [], statusOK⟩
  | Event.setNetwork ni =>
    let st1 := { st with network_switches := st.network_switches + 1 }
    match st.state with
    | SessionState.kConnected =>
      let r := doSwitch st1 ni
      ⟨r.1, r.2, statusOK⟩
    | _ =>
      ⟨{ st1 with queued_network_info := ni }, [], statusOK⟩
  | Event.datapathEstablished =>
    ⟨{ st with reattempt_count := 0, reattempt_timer_id := -1 },
     (if st.reattempt_timer_id = -1 then []
      else [Effect.cancelTimer st.reattempt_timer_id]) ++
       [Effect.notifyDatapathConnected],
     statusOK⟩
  | Event.datapathFailed s =>
    let c := st.reattempt_count + 1
    if c < maxReattempts then
      ⟨{ st with reattempt_count := c
                 latest_status := s
                 reattempt_timer_id := Int.ofNat st.next_timer_id
                 next_timer_id := st.next_timer_id + 1 },
       [Effect.startTimer reattemptDelayMs st.next_timer_id], statusOK⟩
    else
      ⟨{ st with reattempt_count := c },
       [Effect.notifyDatapathDisconnected st.active_network_info s], statusOK⟩
  | Event.datapathPermanentFailure s =>
    ⟨st, [Effect.notifyDatapathDisconnected st.active_network_info s], statusOK⟩
  | Event.attemptDatapathReconnect =>
    let r := doReattemptSwitch st
    ⟨r.1, r.2, statusOK⟩
  | Event.doRekey =>
    ⟨{ st with is_rekey := true }, [Effect.authStart true], statusOK⟩

/-- Run a list of events through the session, accumulating the effects. -/
def run (st : Session) (evs : List Event) : Session × List Effect :=
  match evs with
  | [] => (st, [])
  | e :: rest =>
    let r := step st e
    let rr := run r.session rest
    (rr.1, r.effects ++ rr.2)

/-- Debug surface of the session (spec.md section 6.3). -/
structure SessionDebugInfo where
  stateString : String
  statusString : String
  successful_rekeys : Nat
  network_switches : Nat
  deriving DecidableEq

/-- The GetDebugInfo operation (spec.md sections 4.1 and 6.3). -/
def Session.getDebugInfo (st : Session) : SessionDebugInfo :=
  { stateString := st.state.debugString
    statusString := st.latest_status.debugString
    successful_rekeys := st.successful_rekeys
    network_switches := st.network_switches }

/-- The `user_private_ip` entry of the test Add-Egress responses
(src/krypton/session_test.cc). -/
def testPrivateIp : PrivateIp := ⟨"10.2.2.123", 32, "fec2:0001::3", 64⟩

/-- The Add-Egress response of the bridge configuration
(SessionTest::SetUp, uplink_spi 1234). -/
def bridgeResponse : AddEgressResponse :=
  ⟨[testPrivateIp],
   ["64.9.240.165:2153", "[2604:ca00:f001:4::5]:2153"],
   1234⟩

/-- The Add-Egress response of the bridge-over-PPN configuration
(BridgeOnPpnSession::SetUp, uplink_spi 123). -/
def ppnResponse : AddEgressResponse :=
  ⟨[testPrivateIp],
   ["64.9.240.165:2153", "[2604:ca00:f001:4::5]:2153"],
   123⟩

/-- The cellular network of the tests: network_id 1234, type CELLULAR. -/
def cellularNetwork : NetworkInfo := ⟨some 1234, NetworkType.cellular⟩

/-- The transient error used by the tests: Internal("Some error"). -/
def internalErr : Status := ⟨StatusCode.internalError, "Some error"⟩

/-- The event trace of SessionTest::StartSessionAndConnectDatapathOnCellular:
start, auth and egress succeed, datapath init succeeds, the cellular network
is set, and the datapath establishes. -/
def happyPathEvents : List Event :=
  [Event.start,
   Event.authSuccessful false,
   Event.egressAvailable false bridgeResponse statusOK,
   Event.setNetwork (some cellularNetwork),
   Event.datapathEstablished]

/-- The session state after the happy-path connect on cellular. -/
def connectedSession : Session :=
  (run (initialSession false) happyPathEvents).1

/-- The consecutive-failure trace of SessionTest.DatapathReattemptFailure:
three datapath failures each followed by the reattempt timer firing. -/
def failTrace : List Event :=
  [Event.datapathFailed internalErr, Event.attemptDatapathReconnect,
   Event.datapathFailed internalErr, Event.attemptDatapathReconnect,
   Event.datapathFailed internalErr, Event.attemptDatapathReconnect]

/-- An effect is tun-safe for descriptor `t` when it creates no tunnel and
any `SwitchNetwork` it performs passes tun descriptor `t`. -/
def effectTunSafe (t : Nat) : Effect → Bool
  | Effect.createTunnel _ => false
  | Effect.switchNetwork _ _ _ _ tf => tf == t
  | _ => true

/-- The session ids of the `SwitchNetwork` calls in an effect list. -/
def switchSessionIds (effs : List Effect) : List Nat :=
  effs.foldr
    (fun e acc =>
      match e with
      | Effect.switchNetwork sid _ _ _ _ => sid :: acc
      | _ => acc)
    []

/-- Claim C6: a DatapathEstablished event in the Connected state resets
reattempt_count to 0, cancels the reattempt timer so reattempt_timer_id is
-1, and fires exactly one DatapathConnected notification, whatever the
current reattempt count and timer are (in particular right after a failure
started a reattempt timer). -/
theorem c6_datapath_established_resets (ls : Status) (ani qn : Option NetworkInfo)
    (atun anfd : Option Nat) (er : Option AddEgressResponse) (rc : Nat)
    (rt rk : Int) (sr nsw fd0 tid0 : Nat) (ir bp : Bool) :
    step ⟨SessionState.kConnected, ls, ani, atun, anfd, qn, er, rc, rt, rk,
          sr, nsw, ir, bp, fd0, tid0⟩ Event.datapathEstablished =
    ⟨⟨SessionState.kConnected, ls, ani, atun, anfd, qn, er, 0, -1, rk,
      sr, nsw, ir, bp, fd0, tid0⟩,
     (if rt = -1 then [] else [Effect.cancelTimer rt]) ++
       [Effect.notifyDatapathConnected],
     statusOK⟩ :=
  rfl

/-- Claim C9: GetDebugInfo called after Start() but before any auth outcome
fills the debug proto with state "kInitialized", status "OK",
successful_rekeys 0 and network_switches 1. -/
theorem c9_debug_info (bp : Bool) :
    (step (initialSession bp) Event.start).session.getDebugInfo =
      ⟨"kInitialized", "OK", 0, 1⟩ :=
  rfl

/-- Claim C5: a DoRekey from the Connected state re-runs auth with
is_rekey set and, on success of the auth and egress steps, invokes
Datapath.Rekey rather than a fresh Datapath.Start, and successful_rekeys
increases by exactly 1; the rekey timer is restarted. -/
theorem c5_rekey_flow (resp : AddEgressResponse) (ls : Status)
    (ani : Option NetworkInfo) (atun anfd : Option Nat)
    (er : Option AddEgressResponse) (rc : Nat) (rt rk : Int)
    (sr nsw fd0 tid0 : Nat) (bp : Bool) :
    run ⟨SessionState.kConnected, ls, ani, atun, anfd, none, er, rc, rt, rk,
         sr, nsw, false, bp, fd0, tid0⟩
      [Event.doRekey, Event.authSuccessful true,
       Event.egressAvailable true resp statusOK] =
    (⟨SessionState.kConnected, ls, ani, atun, anfd, none, some resp, rc, rt,
      Int.ofNat tid0, sr + 1, nsw, false, bp, fd0, tid0 + 1⟩,
     [Effect.authStart true,
      if bp then Effect.getEgressNodeForPpnIpSec true
      else Effect.getEgressNodeForBridge,
      Effect.datapathRekey,
      Effect.startTimer rekeyIntervalMs tid0]) := by
  cases bp <;> rfl

/-- Claim C8: in the Connected state with no tunnel yet, SetNetwork(Some ni)
passes to VpnService.CreateTunnel exactly the TunnelConfig whose
tunnel_ip_addresses are the user_private_ip entries of the Add-Egress
response (ipv4 range with its prefix, then ipv6 range with its prefix),
whose tunnel_dns_addresses are the four fixed DNS entries 8.8.8.8/32,
8.8.8.4/32, 2001:4860:4860::8888/128 and 2001:4860:4860::8844/128, and
whose is_metered is false. -/
theorem c8_tunnel_config (resp : AddEgressResponse) (n : NetworkInfo)
    (ls : Status) (ani qn : Option NetworkInfo) (anfd : Option Nat)
    (rc : Nat) (rt rk : Int) (sr nsw fd0 tid0 : Nat) (ir bp : Bool) :
    (step ⟨SessionState.kConnected, ls, ani, none, anfd, qn, some resp, rc,
           rt, rk, sr, nsw, ir, bp, fd0, tid0⟩
       (Event.setNetwork (some n))).effects =
      [Effect.createProtectedNetworkSocket n,
       Effect.createTunnel (mkTunnelConfig resp),
       Effect.switchNetwork resp.uplink_spi resp.egress_point_sock_addr
         (some n) (some fd0) (fd0 + 1)] ∧
    mkTunnelConfig resp =
      ⟨resp.user_private_ip.flatMap privateIpEntries, fixedDnsAddresses, false⟩ ∧
    mkTunnelConfig bridgeResponse =
      ⟨[⟨IpFamily.v4, "10.2.2.123", 32⟩, ⟨IpFamily.v6, "fec2:0001::3", 64⟩],
       [⟨IpFamily.v4, "8.8.8.8", 32⟩, ⟨IpFamily.v4, "8.8.8.4", 32⟩,
        ⟨IpFamily.v6, "2001:4860:4860::8888", 128⟩,
        ⟨IpFamily.v6, "2001:4860:4860::8844", 128⟩],
       false⟩ :=
  ⟨rfl, rfl, rfl⟩

/-- Claim C1, counterexample: in the session reached by the happy-path
connect followed by three datapath failures each answered by a reattempt,
the reattempt count is 3, which is below MAX_REATTEMPTS = 4, yet the next
(fourth consecutive) DatapathFailed starts no reattempt timer and instead
delivers the single DatapathDisconnected notification; the claim would
require a fourth 500 ms reattempt timer here and the disconnect only on a
fifth consecutive failure. -/
theorem c1_reattempt_counterexample :
    (run connectedSession failTrace).1.reattempt_count = 3 ∧
    (run connectedSession failTrace).1.reattempt_count < maxReattempts ∧
    (step (run connectedSession failTrace).1
        (Event.datapathFailed internalErr)).effects =
      [Effect.notifyDatapathDisconnected (some cellularNetwork) internalErr] :=
  ⟨rfl, by decide, rfl⟩

set_option maxHeartbeats 2000000 in
/-- Claim C1, amended: after the datapath has connected, the first three
consecutive DatapathFailed events each start a 500 ms reattempt timer, and
the endpoints passed to Datapath.SwitchNetwork over the three consecutive
reattempts are [v6, v6, v4] (attempts 0 and 1 use the primary IPv6
candidate, attempt 2 the primary IPv4 candidate, each reattempt passing
exactly one candidate); a fourth consecutive DatapathFailed yields no
further reattempt and exactly one DatapathDisconnected(active_network_info,
status) notification. -/
theorem c1_reattempt_schedule_amended (s ls : Status) (resp : AddEgressResponse)
    (n : NetworkInfo) (t nfd : Nat) (rk : Int) (sr nsw fd0 tid0 : Nat)
    (bp : Bool) :
    run ⟨SessionState.kConnected, ls, some n, some t, some nfd, none,
         some resp, 0, -1, rk, sr, nsw, false, bp, fd0, tid0⟩
      [Event.datapathFailed s, Event.attemptDatapathReconnect,
       Event.datapathFailed s, Event.attemptDatapathReconnect,
       Event.datapathFailed s, Event.attemptDatapathReconnect,
       Event.datapathFailed s] =
    (⟨SessionState.kConnected, s, some n, some t, some (fd0 + 2), none,
      some resp, 4, -1, rk, sr, nsw, false, bp, fd0 + 3, tid0 + 3⟩,
     [Effect.startTimer reattemptDelayMs tid0,
      Effect.createProtectedNetworkSocket n,
      Effect.switchNetwork resp.uplink_spi ((v6Candidates resp).take 1)
        (some n) (some fd0) t,
      Effect.startTimer reattemptDelayMs (tid0 + 1),
      Effect.createProtectedNetworkSocket n,
      Effect.switchNetwork resp.uplink_spi ((v6Candidates resp).take 1)
        (some n) (some (fd0 + 1)) t,
      Effect.startTimer reattemptDelayMs (tid0 + 2),
      Effect.createProtectedNetworkSocket n,
      Effect.switchNetwork resp.uplink_spi ((v4Candidates resp).take 1)
        (some n) (some (fd0 + 2)) t,
      Effect.notifyDatapathDisconnected (some n) s]) :=
  rfl

/-- Claim C7: a SetNetwork(Some ni) call arriving while the session is still
in Initialized is accepted (returns OK), performs no tunnel creation, socket
creation or SwitchNetwork yet, and queues the switch; after the egress
callback succeeds and Datapath.Start returns OK, the queued switch is
applied: in the combined effect sequence the tunnel creation, the protected
socket creation and the SwitchNetwork for ni all come after the
ControlPlaneConnected notification and the Datapath.Start call. -/
theorem c7_set_network_queued (resp : AddEgressResponse) (n : NetworkInfo)
    (rk : Int) (sr nsw fd0 tid0 : Nat) (bp : Bool) :
    (step ⟨SessionState.kInitialized, statusOK, none, none, none, none, none,
           0, -1, rk, sr, nsw, false, bp, fd0, tid0⟩
       (Event.setNetwork (some n))).ret = statusOK ∧
    (step ⟨SessionState.kInitialized, statusOK, none, none, none, none, none,
           0, -1, rk, sr, nsw, false, bp, fd0, tid0⟩
       (Event.setNetwork (some n))).effects = [] ∧
    (step ⟨SessionState.kInitialized, statusOK, none, none, none, none, none,
           0, -1, rk, sr, nsw, false, bp, fd0, tid0⟩
       (Event.setNetwork (some n))).session.queued_network_info = some n ∧
    run ⟨SessionState.kInitialized, statusOK, none, none, none, none, none,
         0, -1, rk, sr, nsw, false, bp, fd0, tid0⟩
      [Event.setNetwork (some n), Event.authSuccessful false,
       Event.egressAvailable false resp statusOK] =
    (⟨SessionState.kConnected, statusOK, some n, some (fd0 + 1), some fd0,
      none, some resp, 0, -1, Int.ofNat tid0, sr, nsw + 1, false, bp,
      fd0 + 2, tid0 + 1⟩,
     [if bp then Effect.getEgressNodeForPpnIpSec false
      else Effect.getEgressNodeForBridge,
      Effect.startTimer rekeyIntervalMs tid0,
      Effect.notifyControlPlaneConnected,
      Effect.datapathStart,
      Effect.createProtectedNetworkSocket n,
      Effect.createTunnel (mkTunnelConfig resp),
      Effect.switchNetwork resp.uplink_spi resp.egress_point_sock_addr
        (some n) (some fd0) (fd0 + 1)]) := by
  cases bp <;> exact ⟨rfl, rfl, rfl, rfl⟩

/-- Claim C10: every Datapath.SwitchNetwork invocation carries as its first
argument the uplink_spi parsed from the Add-Egress response: this holds for
SetNetwork with and without a network, for the reattempt reconnect, and for
the switch queued behind the egress callback; concretely the bridge
configuration response yields session id 1234 and the bridge-over-PPN
response yields 123. -/
theorem c10_switch_session_id (resp : AddEgressResponse) (n : NetworkInfo)
    (ls : Status) (t nfd : Nat) (qn : Option NetworkInfo) (rc : Nat)
    (rt rk : Int) (sr nsw fd0 tid0 : Nat) (ir bp : Bool) :
    switchSessionIds
      (step ⟨SessionState.kConnected, ls, some n, some t, some nfd, qn,
             some resp, rc, rt, rk, sr, nsw, ir, bp, fd0, tid0⟩
         (Event.setNetwork (some n))).effects = [resp.uplink_spi] ∧
    switchSessionIds
      (step ⟨SessionState.kConnected, ls, some n, some t, some nfd, qn,
             some resp, rc, rt, rk, sr, nsw, ir, bp, fd0, tid0⟩
         (Event.setNetwork none)).effects = [resp.uplink_spi] ∧
    switchSessionIds
      (step ⟨SessionState.kConnected, ls, some n, some t, some nfd, qn,
             some resp, rc, rt, rk, sr, nsw, ir, bp, fd0, tid0⟩
         Event.attemptDatapathReconnect).effects = [resp.uplink_spi] ∧
    switchSessionIds
      (step ⟨SessionState.kInitialized, ls, none, none, none, some n, none,
             0, -1, rk, sr, nsw, false, bp, fd0, tid0⟩
         (Event.egressAvailable false resp statusOK)).effects =
      [resp.uplink_spi] ∧
    bridgeResponse.uplink_spi = 1234 ∧
    ppnResponse.uplink_spi = 123 :=
  ⟨rfl, rfl, rfl, rfl, rfl, rfl⟩

/-- Claim C2: for every control-plane failure in a live session state: an
AuthFailure with code PermissionDenied delivers exactly one PermanentFailure
notification, sets latest_status to it, and moves the session to the
terminal state PermanentError; any other AuthFailure, and any Egress Manager
error callback, delivers exactly one ControlPlaneDisconnected notification,
sets latest_status, and moves the session to SessionError. -/
theorem c2_control_plane_failures (st : Session) (h : st.isDead = false) :
    (∀ m : String,
      step st (Event.authFailure ⟨StatusCode.permissionDenied, m⟩) =
        ⟨{ st with latest_status := ⟨StatusCode.permissionDenied, m⟩,
                   state := SessionState.kPermanentError },
         [Effect.notifyPermanentFailure ⟨StatusCode.permissionDenied, m⟩],
         statusOK⟩) ∧
    (∀ s : Status, s.code ≠ StatusCode.permissionDenied →
      step st (Event.authFailure s) =
        ⟨{ st with latest_status := s, state := SessionState.kSessionError },
         [Effect.notifyControlPlaneDisconnected s], statusOK⟩) ∧
    (∀ s : Status,
      step st (Event.egressFailure s) =
        ⟨{ st with latest_status := s, state := SessionState.kSessionError },
         [Effect.notifyControlPlaneDisconnected s], statusOK⟩) := by
  refine ⟨fun m => ?_, fun s hs => ?_, fun s => ?_⟩
  · simp [step, h]
  · simp [step, h, hs]
  · simp [step, h]

/-- Witness for claim C2: the two auth-failure scenarios of the tests
(PermissionDenied("Some error") and Internal("Some error")) and the egress
failure NotFound("Add Egress Failure"), evaluated on the freshly started
session. -/
theorem c2_control_plane_failures_witness :
    step (initialSession false)
        (Event.authFailure ⟨StatusCode.permissionDenied, "Some error"⟩) =
      ⟨{ initialSession false with
           latest_status := ⟨StatusCode.permissionDenied, "Some error"⟩,
           state := SessionState.kPermanentError },
       [Effect.notifyPermanentFailure
          ⟨StatusCode.permissionDenied, "Some error"⟩], statusOK⟩ ∧
    step (initialSession false) (Event.authFailure internalErr) =
      ⟨{ initialSession false with
           latest_status := internalErr,
           state := SessionState.kSessionError },
       [Effect.notifyControlPlaneDisconnected internalErr], statusOK⟩ ∧
    step (initialSession false)
        (Event.egressFailure ⟨StatusCode.notFound, "Add Egress Failure"⟩) =
      ⟨{ initialSession false with
           latest_status := ⟨StatusCode.notFound, "Add Egress Failure"⟩,
           state := SessionState.kSessionError },
       [Effect.notifyControlPlaneDisconnected
          ⟨StatusCode.notFound, "Add Egress Failure"⟩], statusOK⟩ :=
  ⟨(c2_control_plane_failures (initialSession false) rfl).1 "Some error",
   (c2_control_plane_failures (initialSession false) rfl).2.1 internalErr
     (by decide),
   (c2_control_plane_failures (initialSession false) rfl).2.2
     ⟨StatusCode.notFound, "Add Egress Failure"⟩⟩

/-- Claim C3: on the successful egress callback in the Initialized state the
session stores the parsed Add-Egress response, starts the 5-minute rekey
timer, notifies ControlPlaneConnected and invokes Datapath.Start, in that
order; if Datapath.Start returns OK the state becomes Connected with
latest_status OK, and if it returns an error the session additionally
notifies ControlPlaneDisconnected, records the error in latest_status, and
enters SessionError. -/
theorem c3_egress_ok_flow (resp : AddEgressResponse)
    (ani : Option NetworkInfo) (atun anfd : Option Nat) (rk : Int)
    (sr nsw fd0 tid0 : Nat) (bp : Bool) :
    step ⟨SessionState.kInitialized, statusOK, ani, atun, anfd, none, none,
          0, -1, rk, sr, nsw, false, bp, fd0, tid0⟩
      (Event.egressAvailable false resp statusOK) =
    ⟨⟨SessionState.kConnected, statusOK, ani, atun, anfd, none, some resp,
      0, -1, Int.ofNat tid0, sr, nsw, false, bp, fd0, tid0 + 1⟩,
     [Effect.startTimer rekeyIntervalMs tid0,
      Effect.notifyControlPlaneConnected,
      Effect.datapathStart], statusOK⟩ ∧
    (∀ d : Status, d.isOk = false →
      step ⟨SessionState.kInitialized, statusOK, ani, atun, anfd, none, none,
            0, -1, rk, sr, nsw, false, bp, fd0, tid0⟩
        (Event.egressAvailable false resp d) =
      ⟨⟨SessionState.kSessionError, d, ani, atun, anfd, none, some resp,
        0, -1, Int.ofNat tid0, sr, nsw, false, bp, fd0, tid0 + 1⟩,
       [Effect.startTimer rekeyIntervalMs tid0,
        Effect.notifyControlPlaneConnected,
        Effect.datapathStart,
        Effect.notifyControlPlaneDisconnected d], d⟩) := by
  refine ⟨rfl, fun d hd => ?_⟩
  simp [step, Session.isDead, hd]

/-- Witness for claim C3: the datapath-init failure scenario of the tests,
InvalidArgument("Initialization error"), evaluated at the test's Add-Egress
response on the session about to receive the egress callback. -/
theorem c3_egress_ok_flow_witness :
    step ⟨SessionState.kInitialized, statusOK, none, none, none, none, none,
          0, -1, -1, 0, 1, false, false, 1, 1⟩
      (Event.egressAvailable false bridgeResponse
        ⟨StatusCode.invalidArgument, "Initialization error"⟩) =
    ⟨⟨SessionState.kSessionError,
      ⟨StatusCode.invalidArgument, "Initialization error"⟩,
      none, none, none, none, some bridgeResponse,
      0, -1, Int.ofNat 1, 0, 1, false, false, 1, 2⟩,
     [Effect.startTimer rekeyIntervalMs 1,
      Effect.notifyControlPlaneConnected,
      Effect.datapathStart,
      Effect.notifyControlPlaneDisconnected
        ⟨StatusCode.invalidArgument, "Initialization error"⟩],
     ⟨StatusCode.invalidArgument, "Initialization error"⟩⟩ :=
  (c3_egress_ok_flow bridgeResponse none none none (-1) 0 1 1 1 false).2
    ⟨StatusCode.invalidArgument, "Initialization error"⟩ rfl

/-- Helper for claim C4: one session step never recreates the tunnel once a
tun descriptor is held, keeps holding that descriptor, and passes exactly it
to every SwitchNetwork it performs. -/
theorem step_preserves_tun (st : Session) (t : Nat) (e : Event)
    (h : st.active_tun_fd = some t) :
    (step st e).session.active_tun_fd = some t ∧
    ((step st e).effects.all (effectTunSafe t)) = true := by
  obtain ⟨state, ls, ani, atun, anfd, qn, er, rc, rt, rk, sr, nsw, ir, bp, fd0, tid0⟩ := st
  simp only at h
  subst h
  cases e <;> cases state <;> cases bp <;>
    simp [step, Session.isDead, doSwitch, doReattemptSwitch, effectTunSafe] <;>
    (repeat' split) <;>
    simp_all [doSwitch, doReattemptSwitch, effectTunSafe]

/-- Helper for claim C4: over any event list, a session holding a tun
descriptor keeps it, never creates another tunnel, and passes exactly it to
every SwitchNetwork performed along the run. -/
theorem run_preserves_tun (evs : List Event) : ∀ (st : Session) (t : Nat),
    st.active_tun_fd = some t →
    (run st evs).1.active_tun_fd = some t ∧
    ((run st evs).2.all (effectTunSafe t)) = true := by
  induction evs with
  | nil =>
    intro st t h
    simpa [run] using h
  | cons e rest ih =>
    intro st t h
    have hs := step_preserves_tun st t e h
    have hr := ih (step st e).session t hs.1
    simp [run, List.all_append, hs.2, hr.1, hr.2]

/-- Claim C4: across one connected episode the session holds at most one
tun pipe and at most one network pipe: once a tun descriptor exists, any
further event sequence creates no tunnel, keeps the same descriptor, and
passes exactly it to every SwitchNetwork (including SetNetwork(None), which
retains the tun pipe, passes no network info and no network pipe, and
clears the held network pipe); the tunnel is created exactly once, on the
first SetNetwork(Some ni) in the Connected state with no tunnel yet; and
every SetNetwork(Some ni) replaces the held network pipe with the freshly
created protected socket for ni. -/
theorem c4_pipe_uniqueness :
    (∀ (st : Session) (t : Nat), st.active_tun_fd = some t → ∀ evs,
      (run st evs).1.active_tun_fd = some t ∧
      ((run st evs).2.all (effectTunSafe t)) = true) ∧
    (∀ (st : Session) (n : NetworkInfo) (resp : AddEgressResponse),
      st.state = SessionState.kConnected → st.active_tun_fd = none →
      st.egress_response = some resp →
      (step st (Event.setNetwork (some n))).effects =
        [Effect.createProtectedNetworkSocket n,
         Effect.createTunnel (mkTunnelConfig resp),
         Effect.switchNetwork resp.uplink_spi resp.egress_point_sock_addr
           (some n) (some st.next_fd) (st.next_fd + 1)] ∧
      (step st (Event.setNetwork (some n))).session.active_tun_fd =
        some (st.next_fd + 1) ∧
      (step st (Event.setNetwork (some n))).session.active_network_fd =
        some st.next_fd) ∧
    (∀ (st : Session) (n : NetworkInfo) (resp : AddEgressResponse) (t : Nat),
      st.state = SessionState.kConnected → st.active_tun_fd = some t →
      st.egress_response = some resp →
      (step st (Event.setNetwork (some n))).effects =
        [Effect.createProtectedNetworkSocket n,
         Effect.switchNetwork resp.uplink_spi resp.egress_point_sock_addr
           (some n) (some st.next_fd) t] ∧
      (step st (Event.setNetwork (some n))).session.active_tun_fd = some t ∧
      (step st (Event.setNetwork (some n))).session.active_network_fd =
        some st.next_fd) ∧
    (∀ (st : Session) (resp : AddEgressResponse) (t : Nat),
      st.state = SessionState.kConnected → st.active_tun_fd = some t →
      st.egress_response = some resp →
      (step st (Event.setNetwork none)).effects =
        [Effect.switchNetwork resp.uplink_spi resp.egress_point_sock_addr
           none none t] ∧
      (step st (Event.setNetwork none)).session.active_tun_fd = some t ∧
      (step st (Event.setNetwork none)).session.active_network_fd = none) := by
  refine ⟨fun st t h evs => run_preserves_tun evs st t h,
          fun st n resp hst htun hresp => ?_,
          fun st n resp t hst htun hresp => ?_,
          fun st resp t hst htun hresp => ?_⟩ <;>
    simp [step, Session.isDead, doSwitch, hst, htun, hresp]

/-- Witness for claim C4: evaluated on the connected-on-cellular session of
the tests, which holds tun descriptor 2: a same-type network switch followed
by a no-network switch creates no tunnel and always passes tun descriptor 2,
and the no-network switch drops the network pipe. -/
theorem c4_pipe_uniqueness_witness :
    ((run connectedSession
        [Event.setNetwork (some ⟨none, NetworkType.cellular⟩),
         Event.setNetwork none]).1.active_tun_fd = some 2 ∧
     ((run connectedSession
        [Event.setNetwork (some ⟨none, NetworkType.cellular⟩),
         Event.setNetwork none]).2.all (effectTunSafe 2)) = true) ∧
    (step connectedSession (Event.setNetwork none)).effects =
      [Effect.switchNetwork 1234
         ["64.9.240.165:2153", "[2604:ca00:f001:4::5]:2153"] none none 2] :=
  ⟨c4_pipe_uniqueness.1 connectedSession 2 rfl
     [Event.setNetwork (some ⟨none, NetworkType.cellular⟩),
      Event.setNetwork none],
   ((c4_pipe_uniqueness.2.2.2 connectedSession bridgeResponse 2
       rfl rfl rfl).1).trans rfl⟩

end Krypton
